import Mathlib

/-!
Verification development for the research-assistant application's core logic:
the retry/backoff executor, the AI analysis pipeline orchestrator with its
merge/normalization stage (`services/geminiService.ts`, "V2" variant), the
prefix-based ID remapping merge stage (the alternate service variant), the
affinity-canvas auto-layout, and the saved-project history operations
(`types.ts`).  All definitions are shallow embeddings translated directly
from the TypeScript source; external effects (the AI calls, the clock,
`Math.random()`) are passed in as explicit oracle parameters.
-/

namespace ResearchAI

/-- An error value as observed by the retry helper and the pipeline:
the resolved HTTP-like status (the code reads `error?.status || error?.code
|| error?.response?.status`; we model the resolved result of that chain,
`none` when every field is absent/falsy) plus the error message. -/
structure GenError where
  status : Option Nat
  msg : String
deriving DecidableEq, Repr

/-- The guard `status && status >= 400 && status < 500 && status !== 429` from
`retryOperation`.  A missing status is falsy, and any status in the 4xx range
is nonzero hence truthy, so the truthiness test collapses to the range test. -/
def nonRetryableStatus : Option Nat → Bool
  | some s => decide (400 ≤ s) && decide (s < 500) && (s != 429)
  | none => false

/-- Trace of one run of `retryOperation`: the outcome (`Except.error none`
models the `throw lastError` with `lastError` still `undefined`, reachable
only when `retries = 0`), the number of times `operation` was invoked, and
the list of back-off sleeps performed, in order. -/
structure RetryTrace (α : Type) where
  result : Except (Option GenError) α
  calls : Nat
  sleeps : List Nat
deriving Repr

/-- The body of `retryOperation`'s `for` loop.  `op j` is the outcome of the
j-th invocation of `operation` (an oracle for the wrapped effect), `i` is the
current loop index, `fuel` the remaining iterations (`retries - i`), and
`last` the current `lastError`.  Mirrors `services/geminiService.ts` lines
16-34 (and the identical loop in the alternate service variant): on success
return; on a non-retryable 4xx re-throw; otherwise sleep `delay * 2^i` and
continue; after the loop, throw the last error. -/
def retryAux {α : Type} (op : Nat → Except GenError α) (delay : Nat) :
    Nat → Nat → Option GenError → RetryTrace α
  | _, 0, last => { result := .error last, calls := 0, sleeps := [] }
  | i, fuel + 1, _ =>
    match op i with
    | .ok a => { result := .ok a, calls := 1, sleeps := [] }
    | .error e =>
      if nonRetryableStatus e.status then
        { result := .error (some e), calls := 1, sleeps := [] }
      else
        let rest := retryAux op delay (i + 1) fuel (some e)
        { result := rest.result, calls := rest.calls + 1,
          sleeps := delay * 2 ^ i :: rest.sleeps }

/-- `retryOperation(operation, retries, delay)`: run the loop from index 0
with `retries` iterations of fuel and no error recorded yet. -/
def retryOperation {α : Type} (op : Nat → Except GenError α)
    (retries delay : Nat) : RetryTrace α :=
  retryAux op delay 0 retries none

/-- The j-th invocation fails with a server-style (≥ 500) status. -/
def serverFailure {α : Type} (r : Except GenError α) : Prop :=
  ∃ e, r = .error e ∧ ∃ s, e.status = some s ∧ 500 ≤ s

/-- The error carries a client status in [400, 500) other than 429. -/
def clientNon429 (e : GenError) : Prop :=
  ∃ s, e.status = some s ∧ 400 ≤ s ∧ s < 500 ∧ s ≠ 429

/-- The invocation fails and the failure is retryable (no status, a 429, or
anything outside [400, 500)). -/
def retryableFailure {α : Type} (r : Except GenError α) : Prop :=
  ∃ e, r = .error e ∧ nonRetryableStatus e.status = false

/-- Extract the error of a failed invocation, `none` on success. -/
def errOf {α : Type} : Except GenError α → Option GenError
  | .error e => some e
  | .ok _ => none

theorem serverFailure_retryable {α : Type} {r : Except GenError α}
    (h : serverFailure r) : retryableFailure r := by
  obtain ⟨e, hr, s, hs, h5⟩ := h
  refine ⟨e, hr, ?_⟩
  simp [nonRetryableStatus, hs]
  omega

/-- When every attempt fails retryably, the loop runs out its fuel: it makes
exactly `fuel` calls, sleeps `delay * 2^j` after the j-th failure (the loop
body sleeps even on the final iteration, before the loop condition fails),
and ends holding the error of the last attempt. -/
theorem retryAux_all_fail {α : Type} (op : Nat → Except GenError α)
    (delay : Nat) (hf : ∀ j, retryableFailure (op j)) :
    ∀ fuel i last, (retryAux op delay i fuel last).calls = fuel ∧
      (retryAux op delay i fuel last).sleeps
        = (List.range fuel).map (fun j => delay * 2 ^ (i + j)) ∧
      (retryAux op delay i fuel last).result
        = .error (if fuel = 0 then last else errOf (op (i + fuel - 1))) := by
  intro fuel
  induction fuel with
  | zero => intro i last; simp [retryAux]
  | succ n ih =>
    intro i last
    obtain ⟨e, he, hne⟩ := hf i
    have key := ih (i + 1) (some e)
    simp only [retryAux, he, hne, Bool.false_eq_true, if_false]
    refine ⟨by rw [key.1], ?_, ?_⟩
    · rw [key.2.1, List.range_succ_eq_map]
      simp [List.map_map, Function.comp]
      intro a ha
      omega
    · rw [key.2.2]
      rcases Nat.eq_zero_or_pos n with hn | hn
      · subst hn; simp [he, errOf]
      · have h1 : ¬ (n + 1 = 0) := by omega
        have h2 : i + 1 + n - 1 = i + (n + 1) - 1 := by omega
        have h3 : ¬ (n = 0) := by omega
        simp [h1, h2, h3]

/-- Shifting the exponent base: a sleep at exponent `i` followed by the
sleeps at exponents `i+1, …` is the range-map at base `i`. -/
theorem cons_pow_shift (d i k : Nat) :
    d * 2 ^ i :: (List.range k).map (fun j => d * 2 ^ (i + 1 + j))
      = (List.range (k + 1)).map (fun j => d * 2 ^ (i + j)) := by
  rw [List.range_succ_eq_map, List.map_cons, List.map_map]
  refine List.cons_eq_cons.mpr ⟨by norm_num, ?_⟩
  apply List.map_congr_left
  intro j _
  simp only [Function.comp_apply]
  congr 1
  congr 1
  omega

/-- Whatever the operation does, the sleeps performed by the loop starting at
index `i` are an initial segment of the exponential schedule based at `i`. -/
theorem retryAux_sleeps_shape {α : Type} (op : Nat → Except GenError α)
    (d : Nat) : ∀ fuel i last, ∃ k,
    (retryAux op d i fuel last).sleeps
      = (List.range k).map (fun j => d * 2 ^ (i + j)) := by
  intro fuel
  induction fuel with
  | zero => intro i last; exact ⟨0, by simp [retryAux]⟩
  | succ n ih =>
    intro i last
    match he : op i with
    | .ok a => exact ⟨0, by simp [retryAux, he]⟩
    | .error e =>
      by_cases hnr : nonRetryableStatus e.status
      · exact ⟨0, by simp [retryAux, he, hnr]⟩
      · obtain ⟨k, hk⟩ := ih (i + 1) (some e)
        refine ⟨k + 1, ?_⟩
        simpa [retryAux, he, hnr, hk] using cons_pow_shift d i k

/-- C3: for an operation that always fails with a 500-style status,
`retryOperation op n d` invokes `op` exactly `n` times and then raises the
final attempt's error; for an operation whose first attempt fails with a
status in [400, 500) other than 429, it invokes `op` exactly once and
re-raises that error immediately. -/
theorem retry_termination_classification {α : Type}
    (op : Nat → Except GenError α) (n d : Nat) (hn : 0 < n) :
    ((∀ j, serverFailure (op j)) →
      (retryOperation op n d).calls = n ∧
      ∀ e, op (n - 1) = .error e →
        (retryOperation op n d).result = .error (some e))
    ∧ (∀ e, op 0 = .error e → clientNon429 e →
      (retryOperation op n d).calls = 1 ∧
      (retryOperation op n d).result = .error (some e)) := by
  constructor
  · intro hf
    have key := retryAux_all_fail op d (fun j => serverFailure_retryable (hf j)) n 0 none
    have hn0 : ¬ (n = 0) := by omega
    refine ⟨key.1, ?_⟩
    intro e he
    show (retryAux op d 0 n none).result = .error (some e)
    rw [key.2.2]
    simp only [hn0, if_false]
    have : 0 + n - 1 = n - 1 := by omega
    rw [this, he]
    rfl
  · intro e he hc
    obtain ⟨s, hs, h4, h5, h9⟩ := hc
    have hnr : nonRetryableStatus e.status = true := by
      rw [hs]
      simp only [nonRetryableStatus, Bool.and_eq_true, decide_eq_true_eq,
        bne_iff_ne, ne_eq]
      exact ⟨⟨h4, h5⟩, h9⟩
    obtain ⟨m, rfl⟩ : ∃ m, n = m + 1 := ⟨n - 1, by omega⟩
    constructor <;> simp [retryOperation, retryAux, he, hnr]

/-- Witness for C3 at concrete operations: a constant 503 failure is retried
the full 3 attempts; a constant 404 failure is invoked exactly once. -/
theorem retry_termination_classification_witness :
    (retryOperation (fun _ => Except.error (⟨some 503, "server"⟩ : GenError))
        3 2 (α := Nat)).calls = 3 ∧
    (retryOperation (fun _ => Except.error (⟨some 404, "bad"⟩ : GenError))
        3 2 (α := Nat)).calls = 1 := by
  constructor
  · exact ((retry_termination_classification _ 3 2 (by decide)).1
      (fun j => ⟨_, rfl, 503, rfl, by decide⟩)).1
  · exact ((retry_termination_classification _ 3 2 (by decide)).2 _ rfl
      ⟨404, rfl, by decide, by decide, by decide⟩).1

/-- C4: the i-th back-off wait performed by `retryOperation` (0-indexed in
order of occurrence, i.e. the wait separating attempt `i` from attempt
`i + 1`) equals `delay * 2 ^ i`, on every run. -/
theorem backoff_growth {α : Type} (op : Nat → Except GenError α)
    (n d i : Nat) (h : i < (retryOperation op n d).sleeps.length) :
    (retryOperation op n d).sleeps.get ⟨i, h⟩ = d * 2 ^ i := by
  obtain ⟨k, hk⟩ := retryAux_sleeps_shape op d n 0 none
  have hs : (retryOperation op n d).sleeps
      = (List.range k).map (fun j => d * 2 ^ j) := by
    simpa [retryOperation] using hk
  have hi : i < k := by
    have := h
    rw [hs] at this
    simpa using this
  simp [hs, List.get_eq_getElem]

/-- Witness for C4: with `delay = 5` and a constant 500 failure over 3
attempts, the sleeps are `[5, 10, 20]` and the sleep at index 1 is
`5 * 2 ^ 1`. -/
theorem backoff_growth_witness :
    1 < (retryOperation (fun _ => Except.error (⟨some 500, "boom"⟩ : GenError))
        3 5 (α := Nat)).sleeps.length ∧
    (retryOperation (fun _ => Except.error (⟨some 500, "boom"⟩ : GenError))
        3 5 (α := Nat)).sleeps.get ⟨1, by decide⟩ = 5 * 2 ^ 1 :=
  ⟨by decide, backoff_growth _ 3 5 1 (by decide)⟩

/-- C10: when all `n` attempts fail retryably, the loop performs a back-off
sleep after every failed attempt including the last: `n` sleeps in total,
the final one of `d * 2 ^ (n - 1)`, before the last error is raised. -/
theorem retry_sleeps_include_final {α : Type} (op : Nat → Except GenError α)
    (n d : Nat) (hn : 0 < n) (hf : ∀ j, retryableFailure (op j)) :
    (retryOperation op n d).sleeps.length = n ∧
    (retryOperation op n d).sleeps.getLast? = some (d * 2 ^ (n - 1)) := by
  have key := retryAux_all_fail op d hf n 0 none
  have hsl : (retryOperation op n d).sleeps
      = (List.range n).map (fun j => d * 2 ^ j) := by
    simpa [retryOperation] using key.2.1
  constructor
  · rw [hsl]; simp
  · rw [hsl]
    obtain ⟨m, rfl⟩ : ∃ m, n = m + 1 := ⟨n - 1, by omega⟩
    rw [List.range_succ, List.map_append]
    simp

/-- Witness for C10: a constant 429 failure with 2 attempts and base delay 3
sleeps twice, the second time for `3 * 2 ^ 1`. -/
theorem retry_sleeps_include_final_witness :
    (retryOperation (fun _ => Except.error (⟨some 429, "quota"⟩ : GenError))
        2 3 (α := Nat)).sleeps.length = 2 ∧
    (retryOperation (fun _ => Except.error (⟨some 429, "quota"⟩ : GenError))
        2 3 (α := Nat)).sleeps.getLast? = some (3 * 2 ^ (2 - 1)) :=
  retry_sleeps_include_final _ 2 3 (by decide) (fun j => ⟨_, rfl, by decide⟩)

/-! ### Data model (`types.ts`) and JS-truthiness helpers

Absent JSON fields are modeled as `Option.none`; for string fields that the
code guards with `||`, the empty string is falsy exactly like an absent
field, which the helpers below reproduce. -/

/-- JS `s || d` on a string already known to be present. -/
def jsOr (s d : String) : String := if s = "" then d else s

/-- JS `v || d` on a possibly-absent string. -/
def jsOrOpt (v : Option String) (d : String) : String :=
  match v with
  | none => d
  | some s => jsOr s d

/-- `const ensureArray = (arr) => Array.isArray(arr) ? arr : []` applied to a
possibly-absent field. -/
def ensureArray {β : Type} (a : Option (List β)) : List β := a.getD []

/-- JS `s || ""` on a possibly-absent string. -/
def orEmpty (s : Option String) : String := s.getD ""

/-- `Tag` from `types.ts`. -/
structure Tag where
  id : String
  label : String
  color : String
deriving DecidableEq, Repr

/-- `Highlight` from `types.ts` (the optional `startIndex` MVP field is
unused by every embedded code path and omitted). -/
structure Highlight where
  id : String
  text : String
  tagId : String
deriving DecidableEq, Repr

/-- `AffinityItem` from `types.ts`. -/
structure AffinityItem where
  id : String
  text : String
  highlightIds : Option (List String)
  type : Option String
deriving DecidableEq, Repr

/-- `Cluster` from `types.ts`: geometry fields are optional. -/
structure Cluster where
  id : String
  title : String
  items : List AffinityItem
  color : String
  x : Option Int
  y : Option Int
  width : Option Int
  height : Option Int
deriving DecidableEq, Repr

/-- One entry of `SentimentData.distribution` (the `color` entry of the
rendered distribution is never produced by the service layer and omitted). -/
structure SentimentSlice where
  name : String
  value : Int
deriving DecidableEq, Repr

/-- `SentimentData` from `types.ts`. -/
structure Sentiment where
  label : String
  score : Int
  distribution : List SentimentSlice
deriving DecidableEq, Repr

/-- `InsightTableRow` from `types.ts`; the five descriptive fields are
copied verbatim from the AI row (possibly absent), while `quoteId` and
`text` are always produced as strings by the merge code. -/
structure InsightTableRow where
  theme : Option String
  emotion : Option String
  need : Option String
  opportunity : Option String
  proposedUXSolution : Option String
  quoteId : String
  text : String
deriving DecidableEq, Repr

/-- `WordCloudItem` from `types.ts`. -/
structure WordCloudItem where
  word : String
  count : Int
deriving DecidableEq, Repr

/-- `ProblemPattern` from `types.ts`. -/
structure ProblemPattern where
  theme : String
  frequency : Int
  intensity : Int
deriving DecidableEq, Repr

/-- `Task` from `types.ts`; the V2 service passes the AI recommendation rows
through without generating an `id` (the `as any` cast), modeled as `none`. -/
structure Task where
  id : Option String
  text : String
  priority : String
deriving DecidableEq, Repr

/-- The `insights` object of `ResearchData`. -/
structure Insights where
  painPoints : List String
  opportunities : List String
  patterns : List String
  sentiment : Sentiment
  insightsTable : List InsightTableRow
  keyNeeds : Option (List String)
  keyPainPoints : List String
  keyOpportunities : List String
  synthesis : Option String
  wordCloud : List WordCloudItem
  problemPatternsChart : List ProblemPattern
deriving DecidableEq, Repr

/-- The `summary` object of `ResearchData`. -/
structure Summary where
  keyFindings : List String
  quotes : List String
  recommendations : List Task
deriving DecidableEq, Repr

/-- `ResearchData` from `types.ts`: the canonical per-project document. -/
structure ResearchData where
  transcript : String
  tags : List Tag
  highlights : List Highlight
  clusters : List Cluster
  insights : Insights
  summary : Summary
deriving DecidableEq, Repr

/-! ### Parsed AI responses for the V2 service (`services/geminiService.ts`)

Each stage's call-plus-JSON-parse is an oracle `Except GenError _`: an
`Except.error` covers both a failed/exhausted `generateContent` call and an
unparseable response, which the V2 code treats identically for the two
best-effort stages. -/

/-- Parsed `MAIN_SCHEMA` response (every field defensively optional). -/
structure MainJson where
  transcript : Option String
  tags : Option (List Tag)
  highlights : Option (List Highlight)
  painPoints : Option (List String)
  opportunities : Option (List String)
  patterns : Option (List String)
  sentiment : Option Sentiment
  keyFindings : Option (List String)
  keyQuotes : Option (List String)
  recommendations : Option (List Task)
deriving Repr

/-- One item of the V2 `AFFINITY_SCHEMA` response (flat cluster). -/
structure AffinityItemJson where
  id : Option String
  type : Option String
  title : Option String
  color : Option String
  parentId : Option String
  highlightIds : Option (List String)
deriving Repr

/-- Parsed V2 `AFFINITY_SCHEMA` response. -/
structure AffinityJson where
  items : Option (List AffinityItemJson)
deriving Repr

/-- One theme row of the V2 `INSIGHTS_SCHEMA` response. -/
structure ThemeRow where
  theme : Option String
  need : Option String
  dominantEmotion : Option String
  opportunity : Option String
  uxSolution : Option String
  evidenceHighlightIds : Option (List String)
deriving Repr

/-- Parsed V2 `INSIGHTS_SCHEMA` response. -/
structure InsightsJson where
  themes : Option (List ThemeRow)
  wordCloud : Option (List WordCloudItem)
  problemPatternsChart : Option (List ProblemPattern)
deriving Repr

/-- `map` with the element index, starting at `i`. -/
def mapIdxFrom {β γ : Type} (f : Nat → β → γ) : Nat → List β → List γ
  | _, [] => []
  | i, b :: bs => f i b :: mapIdxFrom f (i + 1) bs

/-- `Array.prototype.map((x, index) => …)`. -/
def mapIdx {β γ : Type} (f : Nat → β → γ) (l : List β) : List γ :=
  mapIdxFrom f 0 l

/-- Boolean substring test (JS `String.prototype.includes`). -/
def strContains (s pat : String) : Bool := decide (pat.data <:+: s.data)

/-- `isQuota429` from `services/geminiService.ts`: status/code 429 or a
resource-exhaustion marker in the message. -/
def isQuota429 (e : GenError) : Bool :=
  (e.status == some 429) || strContains e.msg "RESOURCE_EXHAUSTED"
    || strContains e.msg "exceeded your current quota"

/-- The friendly quota message thrown by the V2 top-level catch. -/
def quotaFriendlyMsg : String :=
  "Gemini free-tier quota exceeded (input tokens). This usually happens when sending a large video. Try: (1) upload audio (.mp3) extracted from the video, (2) upload transcript (.txt), or (3) upload a shorter clip."

/-- `t.evidenceHighlightIds?.[0] || ""` (and the matching truthiness test on
the first evidence ID). -/
def firstEvidence (l : Option (List String)) : String :=
  match l with
  | some (x :: _) => jsOr x ""
  | _ => ""

/-- The V2 insights-table row builder (`services/geminiService.ts` lines
458-468): `quoteId` is the first evidence highlight ID (or `""`), and `text`
is looked up fresh in the main-stage highlight list, with a `"Quote not
found"` placeholder when the reference is broken (or the found text is
empty) and `""` when there is no reference at all. -/
def mkInsightRowV2 (highlights : List Highlight) (t : ThemeRow) :
    InsightTableRow :=
  { theme := t.theme, emotion := t.dominantEmotion, need := t.need,
    opportunity := t.opportunity, proposedUXSolution := t.uxSolution,
    quoteId := firstEvidence t.evidenceHighlightIds,
    text :=
      if firstEvidence t.evidenceHighlightIds = "" then ""
      else
        match highlights.find? (fun h => h.id = firstEvidence t.evidenceHighlightIds) with
        | some h => jsOr h.text "Quote not found"
        | none => "Quote not found" }

/-- The V2 flat-cluster-to-UI-cluster transform (`services/geminiService.ts`
lines 433-455).  `rnd` is the oracle for the `Math.random()` item-ID
fallback, indexed by (cluster index, item index). -/
def mkUiClusterV2 (highlights : List Highlight) (rnd : Nat → Nat → String)
    (index : Nat) (cluster : AffinityItemJson) : Cluster :=
  { id := jsOrOpt cluster.id ("cluster-" ++ toString index),
    title := jsOrOpt cluster.title "Untitled Cluster",
    items := mapIdx (fun j hId =>
      { id := jsOr hId (rnd index j),
        text :=
          match highlights.find? (fun h => h.id = hId) with
          | some h => h.text
          | none => "Missing quote...",
        highlightIds := some [hId],
        type := some "note" }) (ensureArray cluster.highlightIds),
    color := jsOrOpt cluster.color "#E2E8F0",
    x := some (Int.ofNat (50 + (index % 3) * 350)),
    y := some (Int.ofNat (50 + (index / 3) * 400)),
    width := some 300,
    height := some 340 }

/-- The V2 `analyzeResearchFile` from the three AI stages through the merge
(`services/geminiService.ts` lines 343-507), over oracles for the three
stage outcomes.  The main stage is mandatory; the affinity and insights
stages are wrapped in their own try/catch and fall back to the empty
defaults `{items: []}` / `{themes: [], wordCloud: [], problemPatternsChart:
[]}` on any failure.  The top-level catch rewrites quota-type errors into
the friendly message and re-raises everything else. -/
def analyzeResearchFileV2 (mainRes : Except GenError MainJson)
    (affRes : Except GenError AffinityJson)
    (insRes : Except GenError InsightsJson)
    (rnd : Nat → Nat → String) : Except GenError ResearchData :=
  let res : Except GenError ResearchData :=
    match mainRes with
    | .error e => .error e
    | .ok mainJson =>
      let highlights := ensureArray mainJson.highlights
      let affinityJson : AffinityJson :=
        match affRes with
        | .ok a => a
        | .error _ => { items := some [] }
      let insightsJson : InsightsJson :=
        match insRes with
        | .ok j => j
        | .error _ =>
          { themes := some [], wordCloud := some [],
            problemPatternsChart := some [] }
      let uiClusters :=
        mapIdx (mkUiClusterV2 highlights rnd) (ensureArray affinityJson.items)
      let insightsTable :=
        (ensureArray insightsJson.themes).map (mkInsightRowV2 highlights)
      .ok
        { transcript := orEmpty mainJson.transcript,
          tags := ensureArray mainJson.tags,
          highlights := ensureArray mainJson.highlights,
          clusters := uiClusters,
          insights :=
            { painPoints := ensureArray mainJson.painPoints,
              opportunities := ensureArray mainJson.opportunities,
              patterns := ensureArray mainJson.patterns,
              sentiment := mainJson.sentiment.getD
                { label := "Neutral", score := 50, distribution := [] },
              insightsTable := insightsTable,
              keyNeeds := none,
              keyPainPoints := ensureArray mainJson.painPoints,
              keyOpportunities := ensureArray mainJson.opportunities,
              synthesis := none,
              wordCloud := ensureArray insightsJson.wordCloud,
              problemPatternsChart := ensureArray insightsJson.problemPatternsChart },
          summary :=
            match mainJson.keyFindings with
            | some kf =>
              { keyFindings := kf,
                quotes := ensureArray mainJson.keyQuotes,
                recommendations := ensureArray mainJson.recommendations }
            | none => { keyFindings := [], quotes := [], recommendations := [] } }
  match res with
  | .ok rd => .ok rd
  | .error e =>
    .error (if isQuota429 e then { status := none, msg := quotaFriendlyMsg } else e)

/-- C1: when the main stage succeeds with non-empty transcript, tags and
highlights and both the affinity and insights calls fail with 429 quota
errors, the V2 pipeline returns `Except.ok` carrying the main-stage
transcript/tags/highlights and empty clusters and insights-stage arrays,
rather than an error. -/
theorem pipeline_degraded_mode (mainJson : MainJson) (e1 e2 : GenError)
    (rnd : Nat → Nat → String)
    (ht : orEmpty mainJson.transcript ≠ "")
    (htags : ensureArray mainJson.tags ≠ [])
    (hhl : ensureArray mainJson.highlights ≠ [])
    (hq1 : isQuota429 e1 = true) (hq2 : isQuota429 e2 = true) :
    ∃ rd : ResearchData,
      analyzeResearchFileV2 (.ok mainJson) (.error e1) (.error e2) rnd = .ok rd
      ∧ rd.transcript = orEmpty mainJson.transcript ∧ rd.transcript ≠ ""
      ∧ rd.tags = ensureArray mainJson.tags ∧ rd.tags ≠ []
      ∧ rd.highlights = ensureArray mainJson.highlights ∧ rd.highlights ≠ []
      ∧ rd.clusters = [] ∧ rd.insights.insightsTable = []
      ∧ rd.insights.wordCloud = []
      ∧ rd.insights.problemPatternsChart = [] := by
  refine ⟨_, rfl, rfl, ht, rfl, htags, rfl, hhl, ?_, ?_, ?_, ?_⟩ <;>
    simp [analyzeResearchFileV2, ensureArray, mapIdx, mapIdxFrom]

/-- Witness for C1: a one-tag, one-highlight main result with two 429
failures produces the degraded document. -/
theorem pipeline_degraded_mode_witness :
    orEmpty (some "Question: Why?") ≠ "" ∧
    ∃ rd : ResearchData,
      analyzeResearchFileV2
        (.ok { transcript := some "Question: Why?",
               tags := some [{ id := "t1", label := "Reason", color := "#fff" }],
               highlights := some [{ id := "h1", text := "Why?", tagId := "t1" }],
               painPoints := none, opportunities := none, patterns := none,
               sentiment := none, keyFindings := none, keyQuotes := none,
               recommendations := none })
        (.error { status := some 429, msg := "RESOURCE_EXHAUSTED" })
        (.error { status := some 429, msg := "RESOURCE_EXHAUSTED" })
        (fun _ _ => "r4nd0m") = .ok rd
      ∧ rd.transcript = orEmpty (some "Question: Why?") ∧ rd.transcript ≠ ""
      ∧ rd.tags = ensureArray (some [{ id := "t1", label := "Reason", color := "#fff" }]) ∧ rd.tags ≠ []
      ∧ rd.highlights = ensureArray (some [{ id := "h1", text := "Why?", tagId := "t1" }]) ∧ rd.highlights ≠ []
      ∧ rd.clusters = [] ∧ rd.insights.insightsTable = []
      ∧ rd.insights.wordCloud = []
      ∧ rd.insights.problemPatternsChart = [] :=
  ⟨by decide, pipeline_degraded_mode _ _ _ _ (by decide) (by decide) (by decide)
    (by decide) (by decide)⟩

/-! ### The prefix-remap merge stage (alternate service variant,
`unnamed/part_000` lines 476-528)

This is the variant whose merge rewrites every AI-generated ID to
`` `${filePrefix}_${id}` `` with a per-file random prefix before the data is
merged into the project. -/

/-- `` `${pfx}_${s}` ``: the remapped form of an AI-generated ID. -/
def mkId (pfx s : String) : String := pfx ++ "_" ++ s

/-- The forward map built by `map.set(x.id, `${filePrefix}_${x.id}`)` over a
list of source IDs; since the stored value is determined by the key, the
overwrite-on-duplicate behavior of `Map.set` is the same as membership. -/
def idMap (pfx : String) (ids : List String) (k : String) : Option String :=
  if k ∈ ids then some (mkId pfx k) else none

/-- `uniqueTags`: every tag's ID gets the file prefix. -/
def remapTagsP0 (pfx : String) (tags : List Tag) : List Tag :=
  tags.map fun t => { t with id := mkId pfx t.id }

/-- `uniqueHighlights`: every highlight's ID gets the file prefix and its
`tagId` is rewritten through the tag map, `tagIdMap.get(h.tagId) || h.tagId`. -/
def remapHighlightsP0 (pfx : String) (tags : List Tag)
    (hls : List Highlight) : List Highlight :=
  hls.map fun h =>
    { h with id := mkId pfx h.id,
             tagId := jsOrOpt (idMap pfx (tags.map Tag.id) h.tagId) h.tagId }

/-- One subcluster of the hierarchical `AFFINITY_SCHEMA` of this variant. -/
structure SubclusterJson where
  id : String
  label : String
  description : String
  highlightIds : List String
deriving DecidableEq, Repr

/-- One theme of the hierarchical `AFFINITY_SCHEMA` of this variant; an
absent `id`/`color`/`description` is modeled as `""` (falsy either way). -/
structure ThemeJson where
  id : String
  label : String
  description : String
  color : String
  subclusters : List SubclusterJson
deriving DecidableEq, Repr

/-- One theme flattened to a `Cluster` (`unnamed/part_000` lines 503-521);
`rnd i` is the oracle for the `Math.random().toString(36)` fallback used
when `theme.id` is falsy. -/
def themeToCluster (pfx : String) (hlIds : List String) (rnd : Nat → String)
    (i : Nat) (theme : ThemeJson) : Cluster :=
  { id := mkId pfx (jsOr theme.id (rnd i)),
    title := theme.label,
    items := theme.subclusters.map (fun sub =>
      { id := mkId pfx sub.id,
        text := (sub.label ++ ": " ++ sub.description).trim,
        type := some "subcluster",
        highlightIds := some (sub.highlightIds.map (fun hid =>
          jsOrOpt (idMap pfx hlIds hid) hid)) }),
    color := jsOr theme.color "#E2E8F0",
    x := some (Int.ofNat (50 + (i % 3) * 350)),
    y := some (Int.ofNat (50 + (i / 3) * 350)),
    width := some 320,
    height := some 340 }

/-- `clusters`: the affinity map flattened theme-by-theme. -/
def remapClustersP0 (pfx : String) (hlIds : List String)
    (rnd : Nat → String) (themes : List ThemeJson) : List Cluster :=
  mapIdx (themeToCluster pfx hlIds rnd) themes

/-- `insightsTable` rows of this variant: the row is spread unchanged except
that `quoteId` is rewritten through the highlight map
(`highlightIdMap.get(row.quoteId) || row.quoteId`). -/
def remapInsightRowP0 (hlMap : String → Option String)
    (row : InsightTableRow) : InsightTableRow :=
  { row with quoteId := jsOrOpt (hlMap row.quoteId) row.quoteId }

/-- The whole remapped insights table (`unnamed/part_000` lines 524-528). -/
def remapInsightsTableP0 (pfx : String) (hlIds : List String)
    (rows : List InsightTableRow) : List InsightTableRow :=
  rows.map (remapInsightRowP0 (idMap pfx hlIds))

/-- The raw per-file AI output that carries IDs. -/
structure FileRaw where
  tags : List Tag
  highlights : List Highlight
  themes : List ThemeJson
deriving Repr

/-- All AI-generated source IDs of one file, in emission order: tag IDs,
highlight IDs, then per theme its ID followed by its subcluster IDs. -/
def rawIds (f : FileRaw) : List String :=
  f.tags.map Tag.id ++ f.highlights.map Highlight.id
    ++ f.themes.flatMap (fun th => th.id :: th.subclusters.map SubclusterJson.id)

/-- All IDs the remap stage emits for one file: remapped tag IDs, remapped
highlight IDs, then each cluster's ID followed by its item IDs. -/
def emittedIds (pfx : String) (rnd : Nat → String) (f : FileRaw) :
    List String :=
  (remapTagsP0 pfx f.tags).map Tag.id
    ++ (remapHighlightsP0 pfx f.tags f.highlights).map Highlight.id
    ++ (remapClustersP0 pfx (f.highlights.map Highlight.id) rnd f.themes).flatMap
        (fun c => c.id :: c.items.map AffinityItem.id)

theorem mkId_data (pfx s : String) :
    (mkId pfx s).data = pfx.data ++ '_' :: s.data := by
  simp [mkId, String.data_append]

theorem mkId_ne_empty (pfx s : String) : mkId pfx s ≠ "" := by
  intro h
  have := congrArg String.data h
  rw [mkId_data] at this
  simp at this

/-- Splitting at the first separator: if neither left part contains the
separator, concatenations agree only when both parts agree. -/
theorem sep_split_inj (c : Char) :
    ∀ l1 l2 s1 s2 : List Char, c ∉ l1 → c ∉ l2 →
      l1 ++ c :: s1 = l2 ++ c :: s2 → l1 = l2 ∧ s1 = s2 := by
  intro l1
  induction l1 with
  | nil =>
    intro l2 s1 s2 _ h2 heq
    cases l2 with
    | nil => simpa using heq
    | cons b t =>
      simp only [List.nil_append, List.cons_append, List.cons.injEq] at heq
      exact absurd (heq.1 ▸ List.mem_cons_self b t) h2
  | cons a t ih =>
    intro l2 s1 s2 h1 h2 heq
    cases l2 with
    | nil =>
      simp only [List.nil_append, List.cons_append, List.cons.injEq] at heq
      exact absurd (heq.1.symm ▸ List.mem_cons_self a t) h1
    | cons b t2 =>
      simp only [List.cons_append, List.cons.injEq] at heq
      have ht := ih t2 s1 s2 (fun hm => h1 (List.mem_cons_of_mem a hm))
        (fun hm => h2 (List.mem_cons_of_mem b hm)) heq.2
      exact ⟨by rw [heq.1, ht.1], ht.2⟩

/-- Underscore-free prefixes make `mkId` jointly injective. -/
theorem mkId_inj {p1 p2 s1 s2 : String}
    (h1 : '_' ∉ p1.data) (h2 : '_' ∉ p2.data)
    (heq : mkId p1 s1 = mkId p2 s2) : p1 = p2 ∧ s1 = s2 := by
  have hd := congrArg String.data heq
  rw [mkId_data, mkId_data] at hd
  have := sep_split_inj '_' p1.data p2.data s1.data s2.data h1 h2 hd
  exact ⟨String.ext this.1, String.ext this.2⟩

theorem mkId_inj_same (pfx : String) : Function.Injective (mkId pfx) := by
  intro a b h
  have hd := congrArg String.data h
  rw [mkId_data, mkId_data] at hd
  have := List.append_cancel_left hd
  exact String.ext (List.cons_injective this)

/-- When every theme has a truthy ID, the IDs emitted for the flattened
clusters are exactly the raw theme/subcluster IDs with the prefix applied. -/
theorem clusterIds_of_nonempty (pfx : String) (hlIds : List String)
    (rnd : Nat → String) :
    ∀ (themes : List ThemeJson) (i : Nat), (∀ th ∈ themes, th.id ≠ "") →
      (mapIdxFrom (themeToCluster pfx hlIds rnd) i themes).flatMap
          (fun c => c.id :: c.items.map AffinityItem.id)
        = (themes.flatMap
            (fun th => th.id :: th.subclusters.map SubclusterJson.id)).map
            (mkId pfx) := by
  intro themes
  induction themes with
  | nil => intro i h; simp [mapIdxFrom]
  | cons th rest ih =>
    intro i h
    have hid : th.id ≠ "" := h th (List.mem_cons_self _ _)
    simp only [mapIdxFrom, List.flatMap_cons, List.map_append, List.map_cons]
    rw [ih (i + 1) (fun t ht => h t (List.mem_cons_of_mem _ ht))]
    simp [themeToCluster, jsOr, hid, List.map_map, Function.comp]

/-- When every theme has a truthy ID, the remap stage emits exactly the raw
IDs with the file prefix applied, in order. -/
theorem emittedIds_eq_map (pfx : String) (rnd : Nat → String) (f : FileRaw)
    (hth : ∀ th ∈ f.themes, th.id ≠ "") :
    emittedIds pfx rnd f = (rawIds f).map (mkId pfx) := by
  unfold emittedIds rawIds remapClustersP0 mapIdx
  rw [clusterIds_of_nonempty pfx _ rnd f.themes 0 hth]
  simp only [remapTagsP0, remapHighlightsP0, List.map_map, List.map_append,
    List.append_assoc]
  rfl

/-- C2: merging two files' remapped outputs, each with its own random
(distinct, underscore-free) prefix, yields pairwise-distinct tag, highlight
and cluster/item IDs, provided each file's own raw IDs are distinct and its
theme IDs non-empty; and every merged highlight's rewritten `tagId` resolves
to a tag in the merged tag set, provided each source highlight referenced a
tag of its own file. -/
theorem id_remap_merge_injective (f1 f2 : FileRaw) (p1 p2 : String)
    (rnd1 rnd2 : Nat → String) (hp : p1 ≠ p2)
    (hu1 : '_' ∉ p1.data) (hu2 : '_' ∉ p2.data)
    (hn1 : (rawIds f1).Nodup) (hn2 : (rawIds f2).Nodup)
    (hth1 : ∀ th ∈ f1.themes, th.id ≠ "")
    (hth2 : ∀ th ∈ f2.themes, th.id ≠ "")
    (htag1 : ∀ h ∈ f1.highlights, h.tagId ∈ f1.tags.map Tag.id)
    (htag2 : ∀ h ∈ f2.highlights, h.tagId ∈ f2.tags.map Tag.id) :
    (emittedIds p1 rnd1 f1 ++ emittedIds p2 rnd2 f2).Nodup
    ∧ ∀ h ∈ remapHighlightsP0 p1 f1.tags f1.highlights
            ++ remapHighlightsP0 p2 f2.tags f2.highlights,
        h.tagId ∈ (remapTagsP0 p1 f1.tags ++ remapTagsP0 p2 f2.tags).map
          Tag.id := by
  constructor
  · rw [emittedIds_eq_map p1 rnd1 f1 hth1, emittedIds_eq_map p2 rnd2 f2 hth2]
    refine List.Nodup.append (hn1.map (mkId_inj_same p1))
      (hn2.map (mkId_inj_same p2)) ?_
    intro x hx1 hx2
    obtain ⟨a, _, rfl⟩ := List.mem_map.mp hx1
    obtain ⟨b, _, heq⟩ := List.mem_map.mp hx2
    exact hp ((mkId_inj hu2 hu1 heq).1.symm)
  · intro h hmem
    rw [List.mem_append] at hmem
    rw [List.map_append, List.mem_append]
    rcases hmem with hm | hm
    · left
      obtain ⟨h0, h0mem, rfl⟩ := List.mem_map.mp hm
      have ht := htag1 h0 h0mem
      obtain ⟨t, htmem, htid⟩ := List.mem_map.mp ht
      simp only [jsOrOpt, idMap, ht, if_true, jsOr, mkId_ne_empty, if_false]
      refine List.mem_map.mpr ⟨{ t with id := mkId p1 t.id }, ?_, ?_⟩
      · exact List.mem_map.mpr ⟨t, htmem, rfl⟩
      · simp [htid]
    · right
      obtain ⟨h0, h0mem, rfl⟩ := List.mem_map.mp hm
      have ht := htag2 h0 h0mem
      obtain ⟨t, htmem, htid⟩ := List.mem_map.mp ht
      simp only [jsOrOpt, idMap, ht, if_true, jsOr, mkId_ne_empty, if_false]
      refine List.mem_map.mpr ⟨{ t with id := mkId p2 t.id }, ?_, ?_⟩
      · exact List.mem_map.mpr ⟨t, htmem, rfl⟩
      · simp [htid]

/-- A small concrete per-file AI output whose raw IDs collide with the other
file's (both files use the same IDs). -/
def fileRawW : FileRaw :=
  { tags := [{ id := "t1", label := "Reason", color := "#fff" }],
    highlights := [{ id := "h1", text := "Because.", tagId := "t1" }],
    themes := [{ id := "c1", label := "Theme", description := "",
                 color := "#abc",
                 subclusters := [{ id := "s1", label := "Sub",
                                   description := "", highlightIds := ["h1"] }] }] }

/-- Witness for C2 at two identical files under prefixes `ab12d`/`cd34e`:
the merged emitted IDs are pairwise distinct, and the first merged
highlight's rewritten tagId resolves in the merged tag set. -/
theorem id_remap_merge_injective_witness :
    (emittedIds "ab12d" (fun _ => "r") fileRawW
      ++ emittedIds "cd34e" (fun _ => "r") fileRawW).Nodup
    ∧ ({ id := "ab12d_h1", text := "Because.", tagId := "ab12d_t1" }
        : Highlight).tagId
      ∈ (remapTagsP0 "ab12d" fileRawW.tags
          ++ remapTagsP0 "cd34e" fileRawW.tags).map Tag.id :=
  ⟨(id_remap_merge_injective fileRawW fileRawW "ab12d" "cd34e"
      (fun _ => "r") (fun _ => "r") (by decide) (by decide) (by decide)
      (by decide) (by decide)
      (by intro th h; fin_cases h <;> decide)
      (by intro th h; fin_cases h <;> decide)
      (by intro h hm; fin_cases hm <;> decide)
      (by intro h hm; fin_cases hm <;> decide)).1,
   (id_remap_merge_injective fileRawW fileRawW "ab12d" "cd34e"
      (fun _ => "r") (fun _ => "r") (by decide) (by decide) (by decide)
      (by decide) (by decide)
      (by intro th h; fin_cases h <;> decide)
      (by intro th h; fin_cases h <;> decide)
      (by intro h hm; fin_cases hm <;> decide)
      (by intro h hm; fin_cases hm <;> decide)).2
      _ (by decide)⟩

/-- A concrete AI insights row whose cached `text` disagrees with the text
of the highlight it references. -/
def rowW : InsightTableRow :=
  { theme := some "T", emotion := some "E", need := some "N",
    opportunity := some "O", proposedUXSolution := some "S",
    quoteId := "h1", text := "CACHED" }

/-- Counterexample to C6 on the remap variant (the only variant that has a
highlight ID map): the row's `quoteId` is rewritten to `ab_h1`, but its
`text` is the AI-cached string, not the text of the highlight `ab_h1` in the
final remapped highlight set. -/
theorem insights_row_resolution_counterexample :
    (remapInsightsTableP0 "ab" ["h1"] [rowW]).map InsightTableRow.quoteId
      = ["ab_h1"]
    ∧ (remapInsightsTableP0 "ab" ["h1"] [rowW]).map InsightTableRow.text
      = ["CACHED"]
    ∧ ((remapHighlightsP0 "ab" [{ id := "t1", label := "L", color := "#fff" }]
          [{ id := "h1", text := "REAL", tagId := "t1" }]).find?
          (fun h => h.id = "ab_h1")).map Highlight.text = some "REAL"
    ∧ (remapInsightsTableP0 "ab" ["h1"] [rowW]).map InsightTableRow.text
      ≠ ["REAL"] := by
  refine ⟨by decide, by decide, by decide, by decide⟩

/-- C6 amended: in the remap variant each insights row's `quoteId` is
rewritten through the highlight map (raw ID kept when unmapped) while every
other field, including `text`, is carried over unchanged from the AI output;
it is the V2 merge — which has no ID map — that resolves each row's `text`
fresh against the final highlight set, producing the "Quote not found"
placeholder for a broken non-empty reference instead of throwing. -/
theorem insights_row_remap_behavior (pfx : String) (hlIds : List String)
    (row : InsightTableRow) (hls : List Highlight) (t : ThemeRow) :
    (remapInsightRowP0 (idMap pfx hlIds) row).text = row.text
    ∧ (remapInsightRowP0 (idMap pfx hlIds) row).quoteId
        = jsOrOpt (idMap pfx hlIds row.quoteId) row.quoteId
    ∧ (mkInsightRowV2 hls t).quoteId = firstEvidence t.evidenceHighlightIds
    ∧ (firstEvidence t.evidenceHighlightIds ≠ "" →
        hls.find? (fun h => h.id = firstEvidence t.evidenceHighlightIds)
          = none →
        (mkInsightRowV2 hls t).text = "Quote not found") := by
  refine ⟨rfl, rfl, rfl, ?_⟩
  intro hne hnone
  simp [mkInsightRowV2, hne, hnone]

/-- Witness for the amended C6: a theme row referencing the absent highlight
`zzz` gets the placeholder text. -/
theorem insights_row_remap_behavior_witness :
    firstEvidence (some ["zzz"]) ≠ "" ∧
    (mkInsightRowV2 []
      { theme := some "T", need := some "N", dominantEmotion := some "E",
        opportunity := some "O", uxSolution := some "S",
        evidenceHighlightIds := some ["zzz"] }).text = "Quote not found" :=
  ⟨by decide,
   (insights_row_remap_behavior "ab" [] rowW []
      { theme := some "T", need := some "N", dominantEmotion := some "E",
        opportunity := some "O", uxSolution := some "S",
        evidenceHighlightIds := some ["zzz"] }).2.2.2 (by decide) (by decide)⟩

/-! ### Progress callback events of the V2 ingestion section -/

/-- The three statuses `onProgress` can report. -/
inductive ProgressStatus
  | uploading
  | processing
  | uploaded
deriving DecidableEq, Repr

/-- One `onProgress(status, progress?)` invocation. -/
abbrev ProgressEvent := ProgressStatus × Option Nat

/-- The remote file state returned by `ai.files.get`. -/
inductive RemoteFileState
  | active
  | failed
  | processing
deriving DecidableEq, Repr

/-- The V2 upload-poll loop (`services/geminiService.ts` lines 280-303):
`states k` is the state returned by the k-th `files.get` call; at most 60
calls are made (`attempt > 60` throws the timeout).  Each `PROCESSING`
response emits `onProgress("processing")` before sleeping.  Returns the
events emitted by the loop and its outcome. -/
def pollLoop (states : Nat → RemoteFileState) :
    Nat → Nat → List ProgressEvent × Except GenError Unit
  | _, 0 => ([], .error { status := none, msg := "File processing timed out." })
  | k, fuel + 1 =>
    match states k with
    | .active => ([], .ok ())
    | .failed =>
      ([], .error { status := none,
                    msg := "File processing failed on Gemini side." })
    | .processing =>
      let rest := pollLoop states (k + 1) fuel
      ((ProgressStatus.processing, none) :: rest.1, rest.2)

/-- All `onProgress` invocations over one run of the V2
`analyzeResearchFile`, with the ingestion outcome.  Every `onProgress` call
of the function sits in the ingestion section (lines 251-313): the three AI
stages and the merge (lines 315-507) perform none, so on ingestion success
this is the complete event list of the run, whether or not the pipeline then
succeeds.  `upload` is the outcome of the retried `ai.files.upload` call
(large files only). -/
def analyzeProgressEvents (large : Bool) (upload : Except GenError Unit)
    (states : Nat → RemoteFileState) :
    List ProgressEvent × Except GenError Unit :=
  if large then
    match upload with
    | .error e => ([(ProgressStatus.uploading, some 10)], .error e)
    | .ok _ =>
      let poll := pollLoop states 0 60
      match poll.2 with
      | .ok _ =>
        ((ProgressStatus.uploading, some 10)
           :: (ProgressStatus.uploaded, some 100)
           :: (poll.1 ++ [(ProgressStatus.processing, none)]), .ok ())
      | .error e =>
        ((ProgressStatus.uploading, some 10)
           :: (ProgressStatus.uploaded, some 100) :: poll.1, .error e)
  else
    ([(ProgressStatus.uploading, some 10), (ProgressStatus.uploading, some 50),
      (ProgressStatus.processing, none)], .ok ())

/-- Counterexample to C5: in the large-file path `onProgress("uploaded",
100)` fires immediately after the upload call succeeds — before the
"processing" notifications and before any AI stage — and no event at all is
emitted when the pipeline later completes, so "uploaded" is emitted merely
at the end of the upload, not after the entire pipeline. -/
theorem progress_uploaded_counterexample :
    (analyzeProgressEvents true (.ok ()) (fun _ => RemoteFileState.active)).1
      = [(ProgressStatus.uploading, some 10),
         (ProgressStatus.uploaded, some 100),
         (ProgressStatus.processing, none)]
    ∧ (analyzeProgressEvents true (.ok ())
        (fun _ => RemoteFileState.active)).1.getLast?
      ≠ some (ProgressStatus.uploaded, some 100) := by
  refine ⟨by decide, by decide⟩

/-- The events of the polling loop are some number of bare "processing"
notifications. -/
theorem pollLoop_events_shape (states : Nat → RemoteFileState) :
    ∀ fuel k, ∃ m, (pollLoop states k fuel).1
      = List.replicate m (ProgressStatus.processing, (none : Option Nat)) := by
  intro fuel
  induction fuel with
  | zero => intro k; exact ⟨0, rfl⟩
  | succ n ih =>
    intro k
    cases hs : states k with
    | active => exact ⟨0, by simp [pollLoop, hs]⟩
    | failed => exact ⟨0, by simp [pollLoop, hs]⟩
    | processing =>
      obtain ⟨m, hm⟩ := ih (k + 1)
      exact ⟨m + 1, by simp [pollLoop, hs, hm, List.replicate_succ]⟩

/-- C5 amended: `onProgress` fires "uploading" (10) at the start; the small
path then fires "uploading" (50) and one "processing" once the inline
payload is ready; the large path fires "uploaded" (100) immediately after
the remote upload succeeds, then the polling "processing" notifications and
a final "processing" once the remote file is ready.  No event is emitted at
pipeline completion — the caller, not the service, flips the file status to
"uploaded" when the returned promise resolves. -/
theorem progress_event_contract (states : Nat → RemoteFileState) :
    (analyzeProgressEvents false (.ok ()) states).1
      = [(ProgressStatus.uploading, some 10),
         (ProgressStatus.uploading, some 50),
         (ProgressStatus.processing, none)]
    ∧ ((analyzeProgressEvents true (.ok ()) states).2 = .ok () →
      ∃ m, (analyzeProgressEvents true (.ok ()) states).1
        = (ProgressStatus.uploading, some 10)
          :: (ProgressStatus.uploaded, some 100)
          :: (List.replicate m (ProgressStatus.processing, (none : Option Nat))
              ++ [(ProgressStatus.processing, none)])) := by
  refine ⟨rfl, ?_⟩
  intro hok
  obtain ⟨m, hm⟩ := pollLoop_events_shape states 60 0
  cases hpoll : (pollLoop states 0 60).2 with
  | ok u =>
    refine ⟨m, ?_⟩
    simp [analyzeProgressEvents, hpoll, hm]
  | error e =>
    exfalso
    have := hok
    simp [analyzeProgressEvents, hpoll] at this

/-- Witness for the amended C5: with a remote file that is immediately
active, the large-file success trace has zero polling notifications. -/
theorem progress_event_contract_witness :
    (analyzeProgressEvents true (.ok ())
        (fun _ => RemoteFileState.active)).2 = .ok ()
    ∧ ∃ m, (analyzeProgressEvents true (.ok ())
        (fun _ => RemoteFileState.active)).1
      = (ProgressStatus.uploading, some 10)
        :: (ProgressStatus.uploaded, some 100)
        :: (List.replicate m (ProgressStatus.processing, (none : Option Nat))
            ++ [(ProgressStatus.processing, none)]) :=
  ⟨by rfl,
   (progress_event_contract (fun _ => RemoteFileState.active)).2 (by rfl)⟩

/-! ### Saved-project history operations (`types.ts`) -/

/-- `INITIAL_DATA` from `types.ts`. -/
def INITIAL_DATA : ResearchData :=
  { transcript := "", tags := [], highlights := [], clusters := [],
    insights :=
      { painPoints := [], opportunities := [], patterns := [],
        sentiment := { label := "Neutral", score := 50, distribution := [] },
        insightsTable := [], keyNeeds := some [], keyPainPoints := [],
        keyOpportunities := [], synthesis := some "", wordCloud := [],
        problemPatternsChart := [] },
    summary := { keyFindings := [], quotes := [], recommendations := [] } }

/-- `SavedProject` from `types.ts`. -/
structure SavedProject where
  id : String
  name : String
  date : String
  fileType : String
  fileCount : Option Nat
  data : ResearchData
deriving DecidableEq, Repr

/-- The history update of `handleAddFiles`' completion handler (`types.ts`
lines 2226-2229): drop any entry with the saved project's ID, prepend the
fresh snapshot, cap at 10. -/
def saveCompletedAnalysis (p : SavedProject) (history : List SavedProject) :
    List SavedProject :=
  (p :: history.filter (fun q => q.id != p.id)).take 10

/-- The history update of `handleNewProject` (`types.ts` line 2396) and of
`handleStartAnalysis` (line 2112): a plain prepend, with no cap. -/
def newProjectHistory (p : SavedProject) (history : List SavedProject) :
    List SavedProject :=
  p :: history

/-- Update the first element satisfying the predicate, as
`findIndex`-then-assign does. -/
def updateFirst {β : Type} (pred : β → Bool) (f : β → β) : List β → List β
  | [] => []
  | x :: xs => if pred x then f x :: xs else x :: updateFirst pred f xs

/-- The history update of `handleUpdateProjectName` (`types.ts` lines
2138-2155): rename in place when the ID is present, otherwise prepend a
fresh entry (again with no cap). -/
def renameHistory (projectId name : String) (fresh : SavedProject)
    (history : List SavedProject) : List SavedProject :=
  if history.any (fun p => p.id == projectId) then
    updateFirst (fun p => p.id == projectId)
      (fun p => { p with name := name }) history
  else
    fresh :: history

/-- The project branch of `executeDeletion` (`types.ts` line 2433). -/
def deleteProjectHistory (projectId : String)
    (history : List SavedProject) : List SavedProject :=
  history.filter (fun p => p.id != projectId)

/-- A stock history entry. -/
def mkSavedW (i : Nat) : SavedProject :=
  { id := "p" ++ toString i, name := "P", date := "2026-01-01",
    fileType := "text", fileCount := some 0, data := INITIAL_DATA }

/-- A full 10-entry history. -/
def historyW : List SavedProject := (List.range 10).map mkSavedW

/-- Counterexample to C7: `handleNewProject` prepends to the history with no
cap, so on a 10-entry history it leaves 11 entries. -/
theorem history_cap_counterexample :
    historyW.length = 10
    ∧ (newProjectHistory (mkSavedW 10) historyW).length = 11
    ∧ ¬ (newProjectHistory (mkSavedW 10) historyW).length ≤ 10 := by
  refine ⟨by decide, by decide, by decide⟩

theorem updateFirst_length {β : Type} (pred : β → Bool) (f : β → β) :
    ∀ l : List β, (updateFirst pred f l).length = l.length := by
  intro l
  induction l with
  | nil => rfl
  | cons x xs ih => by_cases h : pred x <;> simp [updateFirst, h, ih]

/-- C7 amended: only the save-completed-analysis update caps the history at
10 (prepending the fresh snapshot at the head, most-recent-first) and
deletion only shrinks it; creating a new project always grows the list by
one, and renaming grows it by one whenever the ID is not yet present, so
those operations can leave more than 10 entries. -/
theorem history_operations_behavior (p fresh : SavedProject)
    (history : List SavedProject) (pid name : String) :
    (saveCompletedAnalysis p history).length ≤ 10
    ∧ (saveCompletedAnalysis p history).head? = some p
    ∧ (deleteProjectHistory pid history).length ≤ history.length
    ∧ (newProjectHistory p history).length = history.length + 1
    ∧ (renameHistory pid name fresh history).length
        = (if history.any (fun q => q.id == pid) then history.length
           else history.length + 1) := by
  refine ⟨?_, rfl, ?_, rfl, ?_⟩
  · simp [saveCompletedAnalysis]
  · exact List.length_filter_le _ _
  · by_cases h : history.any (fun q => q.id == pid) <;>
      simp [renameHistory, h, updateFirst_length]

/-! ### Auto-layout of the affinity canvas (`types.ts` lines 1317-1346) -/

/-- JS `v || d` on a possibly-absent number (`0` is falsy). -/
def jsOrNum (v : Option Int) (d : Int) : Int :=
  match v with
  | none => d
  | some n => if n = 0 then d else n

/-- The loop body of `handleAutoLayout`: `curX`/`curY` is the row cursor,
`rowH` the running maximum height of the current row.  A cluster whose right
edge would pass `MAX_ROW_WIDTH = 1600` (unless it is the first of its row,
`currentX > START_X`) wraps to a new row below the tallest cluster of the
completed row plus the 40px padding. -/
def autoLayoutGo : List Cluster → Int → Int → Int → List Cluster
  | [], _, _, _ => []
  | c :: rest, curX, curY, rowH =>
    if 1600 < curX + jsOrNum c.width 300 ∧ 50 < curX then
      { c with x := some 50, y := some (curY + rowH + 40) }
        :: autoLayoutGo rest (50 + jsOrNum c.width 300 + 40) (curY + rowH + 40)
            (jsOrNum c.height 340)
    else
      { c with x := some curX, y := some curY }
        :: autoLayoutGo rest (curX + jsOrNum c.width 300 + 40) curY
            (max rowH (jsOrNum c.height 340))

/-- `handleAutoLayout`: lay all clusters out from `START_X = START_Y = 50`. -/
def handleAutoLayout (clusters : List Cluster) : List Cluster :=
  autoLayoutGo clusters 50 50 0

theorem autoLayoutGo_idem : ∀ (l : List Cluster) (a b r : Int),
    autoLayoutGo (autoLayoutGo l a b r) a b r = autoLayoutGo l a b r := by
  intro l
  induction l with
  | nil => intro a b r; rfl
  | cons c rest ih =>
    intro a b r
    by_cases hw : 1600 < a + jsOrNum c.width 300 ∧ 50 < a
    · simp [autoLayoutGo, hw, ih]
    · simp [autoLayoutGo, hw, ih]

/-- C9: running `handleAutoLayout` twice on the same cluster list yields
the same position assignments; the second run changes nothing, since
positions depend only on the (unchanged) widths and heights. -/
theorem autoLayout_idempotent (clusters : List Cluster) :
    handleAutoLayout (handleAutoLayout clusters) = handleAutoLayout clusters :=
  autoLayoutGo_idem clusters 50 50 0

/-- A stock 300-wide, 340-tall cluster. -/
def clusterW : Cluster :=
  { id := "c", title := "T", items := [], color := "#abc",
    x := none, y := none, width := some 300, height := some 340 }

/-- Counterexample to C8: with width-300 clusters (`MAX_ROW_WIDTH = 1600`,
40px padding, `START_X = 50`) only 4 clusters fit per row, not 5: the fifth
cluster would start at x = 1410 and 1410 + 300 > 1600, so it wraps to
(50, 430). -/
theorem autolayout_five_per_row_counterexample :
    (handleAutoLayout (List.replicate 5 clusterW)).map (fun c => (c.x, c.y))
      = [(some 50, some 50), (some 390, some 50), (some 730, some 50),
         (some 1070, some 50), (some 50, some 430)]
    ∧ ((handleAutoLayout (List.replicate 5 clusterW)).map
        (fun c => c.y)).getLast? ≠ some (some 50) := by
  refine ⟨by decide, by decide⟩

/-- Where the i-th uniform 300×340 cluster ends up: 4 per row, each row
380 = 340 + 40 below the previous. -/
def placedW (i : Nat) : Cluster :=
  { clusterW with x := some ((50 + (i % 4) * 340 : Nat) : Int),
                  y := some ((50 + (i / 4) * 380 : Nat) : Int) }

theorem placedW_shift (m : Nat) :
    ((fun j => placedW (m + j)) ∘ Nat.succ) = fun j => placedW (m + 1 + j) := by
  funext j
  simp only [Function.comp_apply]
  congr 1
  omega

theorem clusterW_w : jsOrNum clusterW.width 300 = 300 := by
  norm_num [jsOrNum, clusterW]

theorem clusterW_h : jsOrNum clusterW.height 340 = 340 := by
  norm_num [jsOrNum, clusterW]

/-- Invariant of the uniform layout: after `m ≥ 1` placed clusters the
cursor sits at the end of the `((m-1) % 4)`-indexed slot of row
`(m-1) / 4` with row height 340, and the remaining clusters land at
`placedW m, placedW (m+1), …`. -/
theorem autoLayoutGo_uniform :
    ∀ (n m : Nat), 1 ≤ m →
      autoLayoutGo (List.replicate n clusterW)
        ((50 + ((m - 1) % 4 + 1) * 340 : Nat) : Int)
        ((50 + ((m - 1) / 4) * 380 : Nat) : Int) 340
      = (List.range n).map (fun j => placedW (m + j)) := by
  intro n
  induction n with
  | zero => intro m hm; simp [autoLayoutGo]
  | succ k ih =>
    intro m hm
    rw [List.replicate_succ, List.range_succ_eq_map, List.map_cons,
      List.map_map, placedW_shift]
    by_cases hz : m % 4 = 0
    · have hxw : ((50 + ((m - 1) % 4 + 1) * 340 : Nat) : Int) = 1410 := by
        have h3 : (m - 1) % 4 = 3 := by omega
        rw [h3]; norm_num
      rw [autoLayoutGo, hxw, clusterW_w, clusterW_h,
        if_pos (by norm_num : (1600 : Int) < 1410 + 300 ∧ (50 : Int) < 1410)]
      have hy : ((50 + ((m - 1) / 4) * 380 : Nat) : Int) + 340 + 40
          = ((50 + (m / 4) * 380 : Nat) : Int) := by
        push_cast
        omega
      rw [hy]
      refine List.cons_eq_cons.mpr ⟨?_, ?_⟩
      · have e1 : (m + 0) % 4 = 0 := by omega
        have e2 : (m + 0) / 4 = m / 4 := by omega
        simp only [placedW, e1, e2]
        norm_num
      · have hstep := ih (m + 1) (by omega)
        have hx1 : ((50 + ((m + 1 - 1) % 4 + 1) * 340 : Nat) : Int)
            = (50 : Int) + 300 + 40 := by
          push_cast
          omega
        have hy1 : ((50 + ((m + 1 - 1) / 4) * 380 : Nat) : Int)
            = ((50 + (m / 4) * 380 : Nat) : Int) := by
          push_cast
          omega
        rw [hx1, hy1] at hstep
        exact hstep
    · have hcx : ((50 + ((m - 1) % 4 + 1) * 340 : Nat) : Int)
          = ((50 + (m % 4) * 340 : Nat) : Int) := by
        push_cast
        omega
      have hcy : ((50 + ((m - 1) / 4) * 380 : Nat) : Int)
          = ((50 + (m / 4) * 380 : Nat) : Int) := by
        push_cast
        omega
      rw [autoLayoutGo, clusterW_w, clusterW_h, hcx, hcy,
        if_neg (by push_cast; omega :
          ¬ ((1600 : Int) < ((50 + (m % 4) * 340 : Nat) : Int) + 300
              ∧ (50 : Int) < ((50 + (m % 4) * 340 : Nat) : Int)))]
      refine List.cons_eq_cons.mpr ⟨?_, ?_⟩
      · simp only [placedW, Nat.add_zero]
      · have hstep := ih (m + 1) (by omega)
        have hx1 : ((50 + ((m + 1 - 1) % 4 + 1) * 340 : Nat) : Int)
            = ((50 + (m % 4) * 340 : Nat) : Int) + 300 + 40 := by
          push_cast
          omega
        have hy1 : ((50 + ((m + 1 - 1) / 4) * 380 : Nat) : Int)
            = ((50 + (m / 4) * 380 : Nat) : Int) := by
          push_cast
          omega
        rw [hx1, hy1] at hstep
        rw [max_self]
        exact hstep

/-- C8 amended: with the literal constants (`MAX_ROW_WIDTH = 1600`,
`PADDING = 40`, `START_X = START_Y = 50`) and clusters of width 300 and
height 340, `handleAutoLayout` places exactly 4 clusters per row — cluster
`i` at `x = 50 + (i mod 4) * 340` — and each wrapped row's `y` offset is the
previous row's maximum cluster height (340) plus the padding:
`y = 50 + (i div 4) * 380`. -/
theorem autolayout_uniform_rows (n : Nat) :
    handleAutoLayout (List.replicate n clusterW)
      = (List.range n).map placedW := by
  cases n with
  | zero => rfl
  | succ k =>
    rw [List.replicate_succ, List.range_succ_eq_map, List.map_cons,
      List.map_map]
    show autoLayoutGo (clusterW :: List.replicate k clusterW) 50 50 0 = _
    rw [autoLayoutGo, clusterW_w, clusterW_h,
      if_neg (by norm_num :
        ¬ ((1600 : Int) < 50 + 300 ∧ (50 : Int) < 50))]
    refine List.cons_eq_cons.mpr ⟨?_, ?_⟩
    · simp only [placedW]
      norm_num
    · have hstep := autoLayoutGo_uniform k 1 (by omega)
      have hx1 : ((50 + ((1 - 1) % 4 + 1) * 340 : Nat) : Int)
          = (50 : Int) + 300 + 40 := by
        norm_num
      have hy1 : ((50 + ((1 - 1) / 4) * 380 : Nat) : Int) = (50 : Int) := by
        norm_num
      rw [hx1, hy1] at hstep
      have hmax : max (0 : Int) 340 = 340 := by norm_num
      rw [hmax, hstep]
      apply List.map_congr_left
      intro j _
      simp only [Function.comp_apply]
      congr 1
      omega

end ResearchAI
